import Mathlib

/-!
Shallow embedding of the zeek-tcp-writer log writer (src/src/TCP.cc).

The writer keeps a socket descriptor `sock` (-1 when disconnected), a
process-wide TLS-library-initialised flag `ssl_init`, raw-pointer members
`ssl` and `ctx` for the TLS session and context, and configuration fields
`host`, `tcpport`, `retry`, `tls`, `cert`, `key`.  Outcomes of the system
and OpenSSL calls made during one connection attempt are supplied by an
`Env` record; the observable side effects (error reports, socket
open and close, TLS resource allocation and release, bytes handed to
send and SSL_write) are collected in a trace of `Event`s.
-/

namespace TCP

/-- Status of the object a raw-pointer member (`ssl`, `ctx`) points to:
never assigned, pointing at a live object, assigned null (a failed
constructor call), or dangling after a free. -/
inductive Handle
  | uninit
  | live
  | nullp
  | freed
deriving DecidableEq

/-- Tags for the messages passed to `Error` / `Warning` in TCP.cc; the
verify-failure message carries the verification result code whose
human-readable `X509_verify_cert_error_string` rendering it reports. -/
inductive Msg
  | resolveErr
  | socketErr
  | connectErr
  | ctxErr
  | defaultPathsErr
  | certErr
  | sslNewErr
  | setHostErr
  | setFdErr
  | handshakeErr
  | noPeerCert
  | verifyErr (code : Int)
  | tlsSendErr
  | sendErr
deriving DecidableEq

/-- Observable side effects of the writer, in program order.  Free and
shutdown events record the status the handle had at that moment, so a
release of a non-live handle (a double free or a use of an uninitialised
pointer) is visible in the trace.  `sendKey` and `sendRec` carry the bytes
handed to the transport (key line vs serialized record), with a flag for
whether they went through SSL_write (true) or plain send (false). -/
inductive Event
  | warn (m : Msg)
  | err (m : Msg)
  | openSock (fd : Int)
  | closeSock (fd : Int)
  | libInit
  | allocCtx
  | allocSsl
  | allocPeer
  | freeCtx (was : Handle)
  | freeSsl (was : Handle)
  | freePeer
  | shutdownSsl (was : Handle)
  | sendKey (viaTls : Bool) (data : String)
  | sendRec (viaTls : Bool) (data : String)
deriving DecidableEq

/-- The writer's member state (TCP class members in TCP.cc). -/
structure TCPState where
  ssl_init : Bool
  sock : Int
  host : String
  tcpport : Int
  retry : Bool
  tls : Bool
  cert : String
  key : String
  sslH : Handle
  ctxH : Handle
  buffer : String
  formatterLive : Bool
deriving DecidableEq

/-- Outcomes of the system / OpenSSL calls made during one connection
attempt (one DoLoad).  Return-value conventions follow the calls in
TCP.cc: getaddrinfo result tested with `> 0`, socket and connect with
`< 0`, SSL_CTX_new and SSL_new null tests, the two trust-store loaders
with `<= 0`, SSL_set_tlsext_host_name / SSL_set_fd / SSL_connect with
`!= 1`, SSL_get_peer_certificate null test, SSL_get_verify_result against
X509_V_OK (0), and the key send with `< 0`. -/
structure Env where
  gaiRet : Int
  socketRet : Int
  connectRet : Int
  ctxNewOk : Bool
  defaultPathsRet : Int
  loadVerifyRet : Int
  sslNewOk : Bool
  setHostRet : Int
  setFdRet : Int
  handshakeRet : Int
  peerPresent : Bool
  verifyResult : Int
  keySendRet : Int
deriving DecidableEq

/-- Which exit of TCP::DoLoad an attempt takes: one tag per return site
of the source function (failure at resolution, socket open, connect, one
of the TLS setup steps, the key send) or the successful fall-through. -/
inductive Stage
  | resolveFail
  | socketFail
  | connectFail
  | ctxFail
  | trustDefaultFail
  | trustFileFail
  | sslNewFail
  | setHostFail
  | setFdFail
  | handshakeFail
  | peerAbsent
  | verifyFail
  | keyFail
  | ok
deriving DecidableEq

/-- The key-send decision at the end of TCP::DoLoad (TCP.cc lines
223-251): taken only when `key` is non-empty, failing when the SSL_write
or send call returns a negative value. -/
def keyStage (s : TCPState) (e : Env) : Stage :=
  if s.key ≠ "" ∧ e.keySendRet < 0 then .keyFail
  else .ok

/-- The session-level steps of the TLS block (TCP.cc lines 139-221):
SSL_new, SNI hostname, fd binding, handshake, peer-certificate retrieval
and chain verification, falling through to the key send. -/
def tlsSessionStage (s : TCPState) (e : Env) : Stage :=
  if e.sslNewOk = false then .sslNewFail
  else if e.setHostRet ≠ 1 then .setHostFail
  else if e.setFdRet ≠ 1 then .setFdFail
  else if e.handshakeRet ≠ 1 then .handshakeFail
  else if e.peerPresent = false then .peerAbsent
  else if e.verifyResult ≠ 0 then .verifyFail
  else keyStage s e

/-- The context-level steps of the TLS block (TCP.cc lines 101-137):
SSL_CTX_new, then the trust-store load — default paths when `cert` is
empty, the configured file otherwise, both tested with `<= 0`. -/
def tlsStage (s : TCPState) (e : Env) : Stage :=
  if e.ctxNewOk = false then .ctxFail
  else if s.cert = "" ∧ e.defaultPathsRet ≤ 0 then .trustDefaultFail
  else if s.cert ≠ "" ∧ e.loadVerifyRet ≤ 0 then .trustFileFail
  else tlsSessionStage s e

/-- The decision cascade of TCP::DoLoad (TCP.cc lines 37-254), read off
the source's early returns in order: getaddrinfo tested with `> 0`,
socket and connect with `< 0`, then the TLS block when tls is on, and
the key send. -/
def loadStage (s : TCPState) (e : Env) : Stage :=
  if e.gaiRet > 0 then .resolveFail
  else if e.socketRet < 0 then .socketFail
  else if e.connectRet < 0 then .connectFail
  else if s.tls then tlsStage s e
  else keyStage s e

/-- The one-time TLS library initialisation trace (TCP.cc lines 92-99):
the string-table and algorithm loading runs only when `ssl_init` is
still false. -/
def libTrace (s : TCPState) : List Event :=
  if s.ssl_init then [] else [Event.libInit]

/-- TCP::DoLoad (TCP.cc lines 37-254): resolve, open socket, connect
(warning-vs-error policy on connect failure driven by `retry` and
`is_retry`, returning `retry` from that branch), then when tls is on the
one-time library init, context creation, trust setup (default paths when
`cert` is empty, else the configured file), session creation, SNI
hostname, fd binding, handshake, peer-certificate retrieval and chain
verification, each failure branch releasing exactly what was acquired and
setting `sock := -1`; finally the optional key send. -/
def DoLoad (s : TCPState) (e : Env) (is_retry : Bool) :
    TCPState × Bool × List Event :=
  match loadStage s e with
  | .resolveFail =>
      (s, false, [.err .resolveErr])
  | .socketFail =>
      ({ s with sock := e.socketRet }, false, [.err .socketErr])
  | .connectFail =>
      ({ s with sock := -1 }, s.retry,
        [.openSock e.socketRet] ++
          (if s.retry then
            if is_retry then [] else [.warn .connectErr]
          else
            [.err .connectErr]) ++
          [.closeSock e.socketRet])
  | .ctxFail =>
      ({ s with ssl_init := true, ctxH := .nullp, sock := -1 }, false,
        [.openSock e.socketRet] ++ libTrace s ++
          [.err .ctxErr, .closeSock e.socketRet])
  | .trustDefaultFail =>
      ({ s with ssl_init := true, ctxH := .freed, sock := -1 }, false,
        [.openSock e.socketRet] ++ libTrace s ++
          [Event.allocCtx, .err .defaultPathsErr, .freeCtx .live,
            .closeSock e.socketRet])
  | .trustFileFail =>
      ({ s with ssl_init := true, ctxH := .freed, sock := -1 }, false,
        [.openSock e.socketRet] ++ libTrace s ++
          [Event.allocCtx, .err .certErr, .freeCtx .live,
            .closeSock e.socketRet])
  | .sslNewFail =>
      ({ s with ssl_init := true, sslH := .nullp, ctxH := .freed, sock := -1 },
        false,
        [.openSock e.socketRet] ++ libTrace s ++
          [Event.allocCtx, .err .sslNewErr, .freeCtx .live,
            .closeSock e.socketRet])
  | .setHostFail =>
      ({ s with ssl_init := true, sslH := .freed, ctxH := .freed, sock := -1 },
        false,
        [.openSock e.socketRet] ++ libTrace s ++
          [Event.allocCtx, Event.allocSsl, .err .setHostErr, .freeSsl .live,
            .freeCtx .live, .closeSock e.socketRet])
  | .setFdFail =>
      ({ s with ssl_init := true, sslH := .freed, ctxH := .freed, sock := -1 },
        false,
        [.openSock e.socketRet] ++ libTrace s ++
          [Event.allocCtx, Event.allocSsl, .err .setFdErr, .freeSsl .live,
            .freeCtx .live, .closeSock e.socketRet])
  | .handshakeFail =>
      ({ s with ssl_init := true, sslH := .freed, ctxH := .freed, sock := -1 },
        false,
        [.openSock e.socketRet] ++ libTrace s ++
          [Event.allocCtx, Event.allocSsl, .err .handshakeErr, .freeSsl .live,
            .freeCtx .live, .closeSock e.socketRet])
  | .peerAbsent =>
      ({ s with ssl_init := true, sslH := .freed, ctxH := .freed, sock := -1 },
        false,
        [.openSock e.socketRet] ++ libTrace s ++
          [Event.allocCtx, Event.allocSsl, .err .noPeerCert,
            .shutdownSsl .live, .freeSsl .live, .freeCtx .live,
            .closeSock e.socketRet])
  | .verifyFail =>
      ({ s with ssl_init := true, sslH := .freed, ctxH := .freed, sock := -1 },
        false,
        [.openSock e.socketRet] ++ libTrace s ++
          [Event.allocCtx, Event.allocSsl, Event.allocPeer,
            .err (.verifyErr e.verifyResult), .freePeer, .shutdownSsl .live,
            .freeSsl .live, .freeCtx .live, .closeSock e.socketRet])
  | .keyFail =>
      if s.tls then
        ({ s with ssl_init := true, sslH := .freed, ctxH := .freed, sock := -1 },
          false,
          [.openSock e.socketRet] ++ libTrace s ++
            [Event.allocCtx, Event.allocSsl, Event.allocPeer, Event.freePeer,
              .sendKey true (s.key ++ "\n"), .err .tlsSendErr,
              .shutdownSsl .live, .freeSsl .live, .freeCtx .live,
              .closeSock e.socketRet])
      else
        ({ s with sock := -1 }, false,
          [.openSock e.socketRet] ++
            [.sendKey false s.key, .err .sendErr, .closeSock e.socketRet])
  | .ok =>
      if s.tls then
        ({ s with sock := e.socketRet, ssl_init := true, sslH := Handle.live, ctxH := Handle.live },
          true,
          [.openSock e.socketRet] ++ libTrace s ++
            [Event.allocCtx, Event.allocSsl, Event.allocPeer,
              Event.freePeer] ++
            (if s.key = "" then [] else [.sendKey true (s.key ++ "\n")]))
      else
        ({ s with sock := e.socketRet }, true,
          [.openSock e.socketRet] ++
            (if s.key = "" then [] else [.sendKey false s.key]))

/-- Modelled from the spec: TCP.h (the class declaration, not under src/)
gives DoLoad's `is_retry` parameter a default of `false`, so the
argument-less calls `DoLoad()` in DoInit and in DoWrite's send-failure
branch run with `is_retry = false` — per the spec's design note that "a
failed write-triggered reconnect is not distinguished from the very first
connect for warning purposes". -/
def DoLoadDefault (s : TCPState) (e : Env) : TCPState × Bool × List Event :=
  DoLoad s e false

/-- TCP::DoUnload (TCP.cc lines 256-271): when tls is on, unconditionally
SSL_shutdown, SSL_free and SSL_CTX_free on the current `ssl` and `ctx`
members (whatever they point to); then close the socket and set
`sock := -1`; always returns true. -/
def DoUnload (s : TCPState) : TCPState × Bool × List Event :=
  if s.tls then
    ({ s with sock := -1, sslH := .freed, ctxH := .freed }, true,
      [.shutdownSsl s.sslH, .freeSsl s.sslH, .freeCtx s.ctxH,
        .closeSock s.sock])
  else
    ({ s with sock := -1 }, true, [.closeSock s.sock])

/-- The WriterInfo configuration map, consumed as a key to string lookup. -/
structure WriterInfo where
  config : List (String × String)
deriving DecidableEq

/-- TCP::GetConfigValue (TCP.cc lines 28-35): the configured value for
`name`, or the empty string when absent. -/
def GetConfigValue (info : WriterInfo) (name : String) : String :=
  match info.config.lookup name with
  | none => ""
  | some v => v

/-- The `stoi` call used on the "tcpport" override. -/
def stoiModel (st : String) : Int :=
  (st.toInt?).getD 0

/-- TCP::DoInit (TCP.cc lines 273-300): read the six configuration
overrides, install each non-empty one ("T" means true for the boolean
flags), construct the JSON formatter, and run DoLoad() (default
`is_retry = false`). -/
def DoInit (s : TCPState) (info : WriterInfo) (e : Env) :
    TCPState × Bool × List Event :=
  let cfg_host := GetConfigValue info "host"
  let cfg_tcpport := GetConfigValue info "tcpport"
  let cfg_retry := GetConfigValue info "retry"
  let cfg_tls := GetConfigValue info "tls"
  let cfg_cert := GetConfigValue info "cert"
  let cfg_key := GetConfigValue info "key"
  let s := if cfg_host ≠ "" then { s with host := cfg_host } else s
  let s := if cfg_tcpport ≠ "" then { s with tcpport := stoiModel cfg_tcpport } else s
  let s := if cfg_retry ≠ "" then { s with retry := cfg_retry = "T" } else s
  let s := if cfg_tls ≠ "" then { s with tls := cfg_tls = "T" } else s
  let s := if cfg_cert ≠ "" then { s with cert := cfg_cert } else s
  let s := if cfg_key ≠ "" then { s with key := cfg_key } else s
  let s := { s with formatterLive := true }
  DoLoadDefault s e

/-- TCP::DoFinish (TCP.cc lines 302-309): DoUnload, then delete the
formatter, returning DoUnload's result. -/
def DoFinish (s : TCPState) : TCPState × Bool × List Event :=
  let r := DoUnload s
  ({ r.1 with formatterLive := false }, r.2.1, r.2.2)

/-- Per-write call outcomes: the environment for the reconnect attempted
when entering DoWrite disconnected (`DoLoad(true)`), the return value of
the record send / SSL_write, and the environment for the reconnect
attempted after a send failure (`DoLoad()`). -/
structure WEnv where
  reconnectEnv : Env
  sendRet : Int
  failEnv : Env
deriving DecidableEq

/-- The send half of TCP::DoWrite (TCP.cc lines 335-362): SSL_write or
plain send of the buffer; on a negative return, DoUnload + DoLoad()
when retry is on (then fall through to return true), else report the
transport error and return false. -/
def doSend (s : TCPState) (w : WEnv) (acc : List Event) :
    TCPState × Bool × List Event :=
  if w.sendRet < 0 then
    if s.retry then
      ((DoLoadDefault (DoUnload s).1 w.failEnv).1, true,
        acc ++ [Event.sendRec s.tls s.buffer] ++ (DoUnload s).2.2 ++
          (DoLoadDefault (DoUnload s).1 w.failEnv).2.2)
    else
      (s, false,
        acc ++ [Event.sendRec s.tls s.buffer,
          .err (if s.tls then Msg.tlsSendErr else Msg.sendErr)])
  else
    (s, true, acc ++ [Event.sendRec s.tls s.buffer])

/-- TCP::DoWrite (TCP.cc lines 311-363): if disconnected, either fail
immediately (retry off) or run DoLoad(true) and return true with the
record dropped when still disconnected; otherwise clear the reusable
buffer, append the formatter's serialization of the record
(`recSer`, the external formatter's output) and one newline byte, and
send it. -/
def DoWrite (s : TCPState) (recSer : String) (w : WEnv) :
    TCPState × Bool × List Event :=
  if s.sock < 0 then
    if s.retry then
      if (DoLoad s w.reconnectEnv true).1.sock < 0 then
        ((DoLoad s w.reconnectEnv true).1, true,
          (DoLoad s w.reconnectEnv true).2.2)
      else
        doSend
          { (DoLoad s w.reconnectEnv true).1 with
            buffer := "" ++ recSer ++ "\n" } w
          (DoLoad s w.reconnectEnv true).2.2
    else
      (s, false, [])
  else
    doSend { s with buffer := "" ++ recSer ++ "\n" } w []

/- Observables over traces. -/

/-- Whether an event is a Warning report. -/
def isWarn : Event → Bool
  | .warn _ => true
  | _ => false

/-- Whether an event is an Error report. -/
def isErr : Event → Bool
  | .err _ => true
  | _ => false

/-- Number of Warning reports in a trace. -/
def warnCount (tr : List Event) : Nat :=
  (tr.filter isWarn).length

/-- Whether an event is a record send. -/
def isRecSend : Event → Bool
  | .sendRec _ _ => true
  | _ => false

/-- The record sends of a trace, in order. -/
def recSends (tr : List Event) : List Event :=
  tr.filter isRecSend

/-- The bytes an event puts on the logical (possibly TLS-wrapped)
stream, if any. -/
def streamBytes : Event → Option String
  | .sendKey _ d => some d
  | .sendRec _ d => some d
  | _ => none

/-- The payloads written to the logical stream by a trace, in order. -/
def streamData (tr : List Event) : List String :=
  tr.filterMap streamBytes

/-- Whether an event puts bytes on the stream at all. -/
def isSendEv : Event → Bool
  | .sendKey _ _ => true
  | .sendRec _ _ => true
  | _ => false

/-- Whether an event puts cleartext application bytes on the wire
(a key or record send through plain `send`, not SSL_write). -/
def isPlainData : Event → Bool
  | .sendKey false _ => true
  | .sendRec false _ => true
  | _ => false

/-- A trace sends nothing on the stream. -/
def noSends (tr : List Event) : Bool :=
  tr.all (fun ev => !isSendEv ev)

/-- A trace sends no cleartext application bytes. -/
def noCleartext (tr : List Event) : Bool :=
  tr.all (fun ev => !isPlainData ev)

/-- Whether an event misuses a handle: SSL_free / SSL_CTX_free of an
already-freed or indeterminate (never-assigned) pointer — a double free
or a free of garbage — or SSL_shutdown of anything but a live session.
Freeing a null pointer is a safe no-op and is not flagged. -/
def isBadFree : Event → Bool
  | .freeSsl w => w = .uninit || w = .freed
  | .freeCtx w => w = .uninit || w = .freed
  | .shutdownSsl w => !(w = .live)
  | _ => false

/-- A trace contains a release of a non-live handle. -/
def hasBadFree (tr : List Event) : Bool :=
  tr.any isBadFree

/-- Whether a trace contains a socket close. -/
def hasClose (tr : List Event) : Bool :=
  tr.any (fun ev => match ev with | .closeSock _ => true | _ => false)

/-- The descriptors opened by a trace, in order. -/
def openedFds (tr : List Event) : List Int :=
  tr.filterMap (fun ev => match ev with | .openSock fd => some fd | _ => none)

/-- The descriptors closed by a trace, in order. -/
def closedFds (tr : List Event) : List Int :=
  tr.filterMap (fun ev => match ev with | .closeSock fd => some fd | _ => none)

/-- Number of events of a trace satisfying `p`. -/
def countE (p : Event → Bool) (tr : List Event) : Nat :=
  (tr.filter p).length

/-- Whether an event allocates a TLS context. -/
def isAllocCtx : Event → Bool
  | .allocCtx => true
  | _ => false

/-- Whether an event frees a TLS context. -/
def isFreeCtx : Event → Bool
  | .freeCtx _ => true
  | _ => false

/-- Whether an event allocates a TLS session. -/
def isAllocSsl : Event → Bool
  | .allocSsl => true
  | _ => false

/-- Whether an event frees a TLS session. -/
def isFreeSsl : Event → Bool
  | .freeSsl _ => true
  | _ => false

/-- Whether an event obtains a peer-certificate handle. -/
def isAllocPeer : Event → Bool
  | .allocPeer => true
  | _ => false

/-- Whether an event releases a peer-certificate handle. -/
def isFreePeer : Event → Bool
  | .freePeer => true
  | _ => false

/-- Every resource acquired in the trace is released in it: the opened
descriptors are exactly the closed ones, and the TLS context, session and
peer-certificate allocations are matched by the same number of frees. -/
def Balanced (tr : List Event) : Prop :=
  openedFds tr = closedFds tr ∧
  countE isAllocCtx tr = countE isFreeCtx tr ∧
  countE isAllocSsl tr = countE isFreeSsl tr ∧
  countE isAllocPeer tr = countE isFreePeer tr

/-- A connection attempt's outcome is an established transport: it
returned true and left a nonnegative descriptor. -/
def EstablishedP (o : TCPState × Bool × List Event) : Prop :=
  o.2.1 = true ∧ 0 ≤ o.1.sock

instance (o : TCPState × Bool × List Event) : Decidable (EstablishedP o) := by
  unfold EstablishedP
  infer_instance

/-- POSIX convention the code relies on: `socket` returns -1 on failure
(never another negative value). -/
def EnvWF (e : Env) : Prop :=
  e.socketRet = -1 ∨ 0 ≤ e.socketRet

instance (e : Env) : Decidable (EnvWF e) := by
  unfold EnvWF
  infer_instance

/-- The attempt gets as far as the peer-certificate check: resolution,
socket, connect succeed, the context is created, the applicable
trust-store load succeeds, the session is created, SNI and fd binding and
the handshake all succeed. -/
def ReachesPeerStage (s : TCPState) (e : Env) : Prop :=
  e.gaiRet ≤ 0 ∧ 0 ≤ e.socketRet ∧ 0 ≤ e.connectRet ∧
  e.ctxNewOk = true ∧
  (if s.cert = "" then 0 < e.defaultPathsRet else 0 < e.loadVerifyRet) ∧
  e.sslNewOk = true ∧ e.setHostRet = 1 ∧ e.setFdRet = 1 ∧
  e.handshakeRet = 1

instance (s : TCPState) (e : Env) : Decidable (ReachesPeerStage s e) := by
  unfold ReachesPeerStage
  infer_instance

/-- A fresh writer as the constructor makes it: disconnected, TLS library
not initialised, pointer members never assigned, with the given
script-level defaults for the configuration fields. -/
def mkWriter (host : String) (tcpport : Int) (retry tls : Bool)
    (cert key : String) : TCPState :=
  { ssl_init := false, sock := -1, host := host, tcpport := tcpport,
    retry := retry, tls := tls, cert := cert, key := key,
    sslH := .uninit, ctxH := .uninit, buffer := "",
    formatterLive := false }

/- Concrete scenarios. -/

/-- Placeholder for the script-level defaults of a fresh writer (the
BifConst defaults live outside this repository); every scenario below
overrides, or never reaches, the fields whose defaults matter. -/
def writerDefaults : TCPState := mkWriter "0.0.0.0" 1 false false "" ""

/-- The spec's scenario configuration: host 127.0.0.1, port 9999,
retry on, tls off. -/
def scenarioConfig : WriterInfo :=
  { config := [("host", "127.0.0.1"), ("tcpport", "9999"),
               ("retry", "T"), ("tls", "F")] }

/-- A configuration turning tls on and retry off. -/
def tlsNoRetryConfig : WriterInfo :=
  { config := [("tls", "T"), ("retry", "F")] }

/-- An attempt in which resolution succeeds, the socket opens as
descriptor 3, and connect is refused (no listener). -/
def envConnRefused : Env :=
  { gaiRet := 0, socketRet := 3, connectRet := -1, ctxNewOk := false,
    defaultPathsRet := 0, loadVerifyRet := 0, sslNewOk := false,
    setHostRet := 0, setFdRet := 0, handshakeRet := 0,
    peerPresent := false, verifyResult := 0, keySendRet := 0 }

/-- A fully successful attempt: descriptor 3, every TLS step succeeding,
a peer certificate present and verifying OK, the key send accepted. -/
def envAllOk : Env :=
  { gaiRet := 0, socketRet := 3, connectRet := 0, ctxNewOk := true,
    defaultPathsRet := 1, loadVerifyRet := 1, sslNewOk := true,
    setHostRet := 1, setFdRet := 1, handshakeRet := 1,
    peerPresent := true, verifyResult := 0, keySendRet := 1 }

/-- The successful attempt, except that the server presents no peer
certificate. -/
def envNoPeer : Env :=
  { envAllOk with peerPresent := false }

/-- The successful attempt, except that getaddrinfo fails with a
positive error code. -/
def envResolveFail : Env :=
  { envAllOk with gaiRet := 2 }

/-- The successful attempt, except that opening the socket fails. -/
def envSocketFail : Env :=
  { envAllOk with socketRet := -1 }

/-- The successful attempt, except that chain verification returns 18
(X509_V_ERR_DEPTH_ZERO_SELF_SIGNED_CERT: a self-signed certificate). -/
def envSelfSigned : Env :=
  { envAllOk with verifyResult := 18 }

/-- The writer state after the scenario's Initialize against a refused
connection. -/
def scenarioAfterInit : TCPState :=
  (DoInit writerDefaults scenarioConfig envConnRefused).1

/-- A plain-transport writer with retry on, connected on descriptor 7. -/
def connectedPlain : TCPState :=
  { mkWriter "collector" 514 true false "" "" with sock := 7, formatterLive := true }

/-- The connected plain writer with retry off. -/
def connectedPlainNoRetry : TCPState :=
  { connectedPlain with retry := false }

/-- A connected TLS writer (retry off) with live session and context. -/
def connectedTlsNoRetry : TCPState :=
  { mkWriter "collector" 6514 false true "" "" with sock := 7, ssl_init := true, sslH := Handle.live, ctxH := Handle.live, formatterLive := true }

/-- A plain writer configured with pre-shared key "secret". -/
def plainKeyWriter : TCPState := mkWriter "collector" 514 true false "" "secret"

/-- A TLS writer configured with pre-shared key "secret". -/
def tlsKeyWriter : TCPState := mkWriter "collector" 514 true true "" "secret"

/-- Write-call outcomes: the entry reconnect would succeed, the record
send fails, and the post-failure reconnect finds the listener gone
again. -/
def wSendFailThenRefused : WEnv :=
  { reconnectEnv := envAllOk, sendRet := -1, failEnv := envConnRefused }

/-- Write-call outcomes for the scenario's Write: the entry reconnect is
refused; the send outcome is never reached. -/
def wRetryRefused : WEnv :=
  { reconnectEnv := envConnRefused, sendRet := 0, failEnv := envConnRefused }

/-- Write-call outcomes in which the transport accepts zero bytes. -/
def wZeroSend : WEnv :=
  { reconnectEnv := envAllOk, sendRet := 0, failEnv := envAllOk }

/-- Write-call outcomes in which the transport accepts five bytes. -/
def wShortSend : WEnv :=
  { reconnectEnv := envAllOk, sendRet := 5, failEnv := envAllOk }

/- Helper lemmas about the stage classifier and the traces of the
lifecycle operations. -/

theorem keyStage_cases (s : TCPState) (e : Env) :
    keyStage s e = .keyFail ∨ keyStage s e = .ok := by
  unfold keyStage
  split_ifs <;> simp

theorem tlsSessionStage_not_early (s : TCPState) (e : Env) :
    tlsSessionStage s e ≠ .resolveFail ∧ tlsSessionStage s e ≠ .socketFail ∧
    tlsSessionStage s e ≠ .connectFail := by
  unfold tlsSessionStage
  rcases keyStage_cases s e with h | h <;> split_ifs <;> simp_all

theorem tlsStage_not_early (s : TCPState) (e : Env) :
    tlsStage s e ≠ .resolveFail ∧ tlsStage s e ≠ .socketFail ∧
    tlsStage s e ≠ .connectFail := by
  unfold tlsStage
  have h := tlsSessionStage_not_early s e
  split_ifs <;> simp_all

theorem loadStage_socketFail_neg {s : TCPState} {e : Env}
    (h : loadStage s e = .socketFail) : e.socketRet < 0 := by
  unfold loadStage at h
  have h1 := tlsStage_not_early s e
  have h2 := keyStage_cases s e
  split_ifs at h <;> simp_all

theorem loadStage_ok_sock {s : TCPState} {e : Env}
    (h : loadStage s e = .ok) : 0 ≤ e.socketRet := by
  unfold loadStage at h
  split_ifs at h <;> omega

theorem loadStage_resolveFail_of {s : TCPState} {e : Env}
    (h : 0 < e.gaiRet) : loadStage s e = .resolveFail := by
  unfold loadStage
  rw [if_pos (by omega : e.gaiRet > 0)]

theorem loadStage_socketFail_of {s : TCPState} {e : Env}
    (h1 : e.gaiRet ≤ 0) (h2 : e.socketRet < 0) :
    loadStage s e = .socketFail := by
  unfold loadStage
  rw [if_neg (by omega : ¬ e.gaiRet > 0), if_pos h2]

theorem loadStage_peerAbsent_of {s : TCPState} {e : Env}
    (htls : s.tls = true) (hre : ReachesPeerStage s e)
    (hp : e.peerPresent = false) : loadStage s e = .peerAbsent := by
  obtain ⟨h1, h2, h3, h4, h5, h6, h7, h8, h9⟩ := hre
  unfold loadStage
  rw [if_neg (by omega : ¬ e.gaiRet > 0), if_neg (by omega : ¬ e.socketRet < 0),
      if_neg (by omega : ¬ e.connectRet < 0), if_pos htls]
  unfold tlsStage
  rw [if_neg (by simp [h4] : ¬ e.ctxNewOk = false)]
  by_cases hc : s.cert = ""
  · rw [if_pos hc] at h5
    rw [if_neg (by rintro ⟨hc2, hle⟩; omega),
        if_neg (by rintro ⟨hc2, hle⟩; exact hc2 hc)]
    unfold tlsSessionStage
    rw [if_neg (by simp [h6]), if_neg (by simp [h7]), if_neg (by simp [h8]),
        if_neg (by simp [h9]), if_pos hp]
  · rw [if_neg hc] at h5
    rw [if_neg (by rintro ⟨hc2, hle⟩; exact hc hc2),
        if_neg (by rintro ⟨hc2, hle⟩; omega)]
    unfold tlsSessionStage
    rw [if_neg (by simp [h6]), if_neg (by simp [h7]), if_neg (by simp [h8]),
        if_neg (by simp [h9]), if_pos hp]

theorem loadStage_verifyFail_of {s : TCPState} {e : Env}
    (htls : s.tls = true) (hre : ReachesPeerStage s e)
    (hp : e.peerPresent = true) (hv : e.verifyResult ≠ 0) :
    loadStage s e = .verifyFail := by
  obtain ⟨h1, h2, h3, h4, h5, h6, h7, h8, h9⟩ := hre
  unfold loadStage
  rw [if_neg (by omega : ¬ e.gaiRet > 0), if_neg (by omega : ¬ e.socketRet < 0),
      if_neg (by omega : ¬ e.connectRet < 0), if_pos htls]
  unfold tlsStage
  rw [if_neg (by simp [h4] : ¬ e.ctxNewOk = false)]
  by_cases hc : s.cert = ""
  · rw [if_pos hc] at h5
    rw [if_neg (by rintro ⟨hc2, hle⟩; omega),
        if_neg (by rintro ⟨hc2, hle⟩; exact hc2 hc)]
    unfold tlsSessionStage
    rw [if_neg (by simp [h6]), if_neg (by simp [h7]), if_neg (by simp [h8]),
        if_neg (by simp [h9]), if_neg (by simp [hp]), if_pos hv]
  · rw [if_neg hc] at h5
    rw [if_neg (by rintro ⟨hc2, hle⟩; exact hc hc2),
        if_neg (by rintro ⟨hc2, hle⟩; omega)]
    unfold tlsSessionStage
    rw [if_neg (by simp [h6]), if_neg (by simp [h7]), if_neg (by simp [h8]),
        if_neg (by simp [h9]), if_neg (by simp [hp]), if_pos hv]

theorem DoLoad_no_record_sends (s : TCPState) (e : Env) (b : Bool) :
    recSends (DoLoad s e b).2.2 = [] := by
  unfold DoLoad
  cases loadStage s e <;>
    simp [recSends, isRecSend, libTrace, List.filter_append] <;>
    split_ifs <;>
    simp [recSends, isRecSend, List.filter_append]

theorem DoUnload_no_record_sends (s : TCPState) :
    recSends (DoUnload s).2.2 = [] := by
  unfold DoUnload
  split_ifs <;> simp [recSends, isRecSend]

theorem DoUnload_closes (s : TCPState) :
    Event.closeSock s.sock ∈ (DoUnload s).2.2 := by
  unfold DoUnload
  split_ifs <;> simp

theorem DoLoad_retry_no_warning (s : TCPState) (e : Env) :
    warnCount (DoLoad s e true).2.2 = 0 := by
  unfold DoLoad
  cases loadStage s e <;>
    simp [warnCount, isWarn, List.filter_append, libTrace] <;>
    split_ifs <;>
    simp [warnCount, isWarn, List.filter_append]

theorem recSends_append (a b : List Event) :
    recSends (a ++ b) = recSends a ++ recSends b := by
  simp [recSends, List.filter_append]

/- The claims. -/

/-- C1 counterexample: in the spec's scenario — host 127.0.0.1, port
9999, retry on, tls off, no listener — Initialize does NOT return
failure: DoLoad's connect-failure branch returns the `retry` flag, so
DoInit returns true. -/
theorem C1_counterexample :
    (DoInit writerDefaults scenarioConfig envConnRefused).2.1 = true := by
  decide

/-- C1 (amended): in the scenario — host 127.0.0.1, port 9999, retry on,
tls off, no listener — Initialize returns success (true) while leaving
the writer Disconnected (sock = -1) with exactly one Warning logged; a
subsequent Write attempts one reconnect with the retry flag set (a
socket is opened and closed again, no further Warning), and, the
reconnect failing, returns true while dropping the record (no record
bytes are sent). -/
theorem C1_scenario :
    (DoInit writerDefaults scenarioConfig envConnRefused).2.1 = true ∧
    warnCount (DoInit writerDefaults scenarioConfig envConnRefused).2.2 = 1 ∧
    (DoInit writerDefaults scenarioConfig envConnRefused).1.sock = -1 ∧
    (DoInit writerDefaults scenarioConfig envConnRefused).1.retry = true ∧
    (DoInit writerDefaults scenarioConfig envConnRefused).1.tls = false ∧
    (DoWrite scenarioAfterInit "record" wRetryRefused).2.1 = true ∧
    warnCount (DoWrite scenarioAfterInit "record" wRetryRefused).2.2 = 0 ∧
    recSends (DoWrite scenarioAfterInit "record" wRetryRefused).2.2 = [] ∧
    openedFds (DoWrite scenarioAfterInit "record" wRetryRefused).2.2 = [3] ∧
    closedFds (DoWrite scenarioAfterInit "record" wRetryRefused).2.2 = [3] ∧
    (DoWrite scenarioAfterInit "record" wRetryRefused).1.sock = -1 := by
  decide

/-- C2: the claim that the first bytes on the stream equal key + "\n" on
BOTH transports fails on the plain-socket path: with key "secret" and a
successful plain connection the code sends exactly "secret" (key.size()
bytes, no newline), while the TLS path does send "secret\n". -/
theorem C2_plain_key_lacks_newline :
    streamData (DoLoad plainKeyWriter envAllOk false).2.2 = ["secret"] ∧
    streamData (DoLoad tlsKeyWriter envAllOk false).2.2 = ["secret" ++ "\n"] ∧
    ("secret" : String) ≠ "secret" ++ "\n" := by
  decide

/-- C3: teardown of an already-disconnected writer is NOT safe when tls
is on: after Initialize with tls on and retry off fails at connect (so
no TLS session or context was ever created), DoFinish still runs
SSL_shutdown, SSL_free and SSL_CTX_free on the never-assigned `ssl` and
`ctx` members — a release of non-live handles. -/
theorem C3_finish_double_free_after_failed_tls_connect :
    (DoInit writerDefaults tlsNoRetryConfig envConnRefused).2.1 = false ∧
    (DoInit writerDefaults tlsNoRetryConfig envConnRefused).1.sock = -1 ∧
    (DoInit writerDefaults tlsNoRetryConfig envConnRefused).1.tls = true ∧
    hasBadFree
      (DoFinish
        (DoInit writerDefaults tlsNoRetryConfig envConnRefused).1).2.2 =
      true := by
  decide

/-- C4 counterexample: with retry on, after the first failed attempt's
one Warning, a Write whose entry reconnect succeeds but whose record
send fails performs a send-failure reconnect that — its connect failing
again — emits a further Warning, contradicting the claim that reconnects
triggered by a send failure emit no further Warning. -/
theorem C4_counterexample :
    warnCount (DoInit writerDefaults scenarioConfig envConnRefused).2.2 = 1 ∧
    warnCount
      (DoWrite scenarioAfterInit "record" wSendFailThenRefused).2.2 = 1 ∧
    (DoWrite scenarioAfterInit "record" wSendFailThenRefused).2.1 = true := by
  decide

/-- C4 (amended): warning suppression covers exactly the reconnects run
with the retry flag set — a DoLoad with is_retry = true never emits a
Warning, whatever the state and outcome — while a reconnect performed
after a send failure calls DoLoad with is_retry defaulting to false and
so emits a fresh Warning when its connect fails with retry configured. -/
theorem C4_warning_suppression_scope :
    (∀ s e, warnCount (DoLoad s e true).2.2 = 0) ∧
    warnCount (DoWrite connectedPlain "record" wSendFailThenRefused).2.2 = 1 := by
  exact ⟨DoLoad_retry_no_warning, by decide⟩

/-- C5: with tls on, once an attempt reaches the peer-certificate check,
an absent peer certificate is fatal (Error logged, failure returned,
writer back at sock = -1) and a chain-verification result other than
X509_V_OK is fatal with the verification result code reported in the
Error message; in both cases the attempt sends nothing on the stream, so
no record is ever transmitted in cleartext fallback. -/
theorem C5_tls_requires_verified_peer (s : TCPState) (e : Env) (b : Bool)
    (htls : s.tls = true) (hre : ReachesPeerStage s e) :
    (e.peerPresent = false →
      (DoLoad s e b).2.1 = false ∧ (DoLoad s e b).1.sock = -1 ∧
      Event.err Msg.noPeerCert ∈ (DoLoad s e b).2.2 ∧
      noSends (DoLoad s e b).2.2 = true) ∧
    (e.peerPresent = true → e.verifyResult ≠ 0 →
      (DoLoad s e b).2.1 = false ∧ (DoLoad s e b).1.sock = -1 ∧
      Event.err (Msg.verifyErr e.verifyResult) ∈ (DoLoad s e b).2.2 ∧
      noSends (DoLoad s e b).2.2 = true) := by
  constructor
  · intro hp
    have hst := loadStage_peerAbsent_of htls hre hp
    cases hsi : s.ssl_init <;>
      simp [DoLoad, hst, libTrace, hsi, noSends, isSendEv, List.all_append]
  · intro hp hv
    have hst := loadStage_verifyFail_of htls hre hp hv
    cases hsi : s.ssl_init <;>
      simp [DoLoad, hst, libTrace, hsi, noSends, isSendEv, List.all_append]

/-- C5 witness: the TLS writer against a server with no peer certificate
fails with the no-certificate Error; against a self-signed certificate
(verification result 18) it fails with the code-18 verification Error. -/
theorem C5_witness :
    ((DoLoad tlsKeyWriter envNoPeer true).2.1 = false ∧
      Event.err Msg.noPeerCert ∈ (DoLoad tlsKeyWriter envNoPeer true).2.2) ∧
    ((DoLoad tlsKeyWriter envSelfSigned false).2.1 = false ∧
      Event.err (Msg.verifyErr 18) ∈
        (DoLoad tlsKeyWriter envSelfSigned false).2.2) := by
  constructor
  · have h :=
      (C5_tls_requires_verified_peer tlsKeyWriter envNoPeer true rfl
        (by decide)).1 rfl
    exact ⟨h.1, h.2.2.1⟩
  · have h :=
      (C5_tls_requires_verified_peer tlsKeyWriter envSelfSigned false rfl
        (by decide)).2 rfl (by decide)
    exact ⟨h.1, h.2.2.1⟩

/-- C6: whenever a connection attempt starting from a disconnected
writer fails to establish a transport (under the POSIX convention that a
failed socket call returns -1), the writer ends at sock = -1 and the
attempt's trace is balanced: every opened descriptor is closed and every
TLS context, session and peer-certificate acquisition is matched by a
release. -/
theorem C6_failure_releases_resources (s : TCPState) (e : Env) (b : Bool)
    (hsock : s.sock = -1) (hwf : EnvWF e)
    (hfail : ¬ EstablishedP (DoLoad s e b)) :
    (DoLoad s e b).1.sock = -1 ∧ Balanced (DoLoad s e b).2.2 := by
  unfold DoLoad
  cases hst : loadStage s e
  case resolveFail =>
    refine ⟨hsock, ?_⟩
    simp [Balanced, openedFds, closedFds, countE, isAllocCtx, isFreeCtx,
      isAllocSsl, isFreeSsl, isAllocPeer, isFreePeer]
  case socketFail =>
    have hneg := loadStage_socketFail_neg hst
    have hm1 : e.socketRet = -1 := by rcases hwf with h | h <;> omega
    refine ⟨hm1, ?_⟩
    simp [Balanced, openedFds, closedFds, countE, isAllocCtx, isFreeCtx,
      isAllocSsl, isFreeSsl, isAllocPeer, isFreePeer]
  case connectFail =>
    refine ⟨rfl, ?_⟩
    cases hr : s.retry <;> cases hb : b <;>
      simp [Balanced, openedFds, closedFds, countE, isAllocCtx, isFreeCtx,
        isAllocSsl, isFreeSsl, isAllocPeer, isFreePeer,
        List.filterMap_append, List.filter_append]
  case ctxFail =>
    refine ⟨rfl, ?_⟩
    cases hsi : s.ssl_init <;>
      simp [libTrace, hsi, Balanced, openedFds, closedFds, countE, isAllocCtx,
        isFreeCtx, isAllocSsl, isFreeSsl, isAllocPeer, isFreePeer,
        List.filterMap_append, List.filter_append]
  case trustDefaultFail =>
    refine ⟨rfl, ?_⟩
    cases hsi : s.ssl_init <;>
      simp [libTrace, hsi, Balanced, openedFds, closedFds, countE, isAllocCtx,
        isFreeCtx, isAllocSsl, isFreeSsl, isAllocPeer, isFreePeer,
        List.filterMap_append, List.filter_append]
  case trustFileFail =>
    refine ⟨rfl, ?_⟩
    cases hsi : s.ssl_init <;>
      simp [libTrace, hsi, Balanced, openedFds, closedFds, countE, isAllocCtx,
        isFreeCtx, isAllocSsl, isFreeSsl, isAllocPeer, isFreePeer,
        List.filterMap_append, List.filter_append]
  case sslNewFail =>
    refine ⟨rfl, ?_⟩
    cases hsi : s.ssl_init <;>
      simp [libTrace, hsi, Balanced, openedFds, closedFds, countE, isAllocCtx,
        isFreeCtx, isAllocSsl, isFreeSsl, isAllocPeer, isFreePeer,
        List.filterMap_append, List.filter_append]
  case setHostFail =>
    refine ⟨rfl, ?_⟩
    cases hsi : s.ssl_init <;>
      simp [libTrace, hsi, Balanced, openedFds, closedFds, countE, isAllocCtx,
        isFreeCtx, isAllocSsl, isFreeSsl, isAllocPeer, isFreePeer,
        List.filterMap_append, List.filter_append]
  case setFdFail =>
    refine ⟨rfl, ?_⟩
    cases hsi : s.ssl_init <;>
      simp [libTrace, hsi, Balanced, openedFds, closedFds, countE, isAllocCtx,
        isFreeCtx, isAllocSsl, isFreeSsl, isAllocPeer, isFreePeer,
        List.filterMap_append, List.filter_append]
  case handshakeFail =>
    refine ⟨rfl, ?_⟩
    cases hsi : s.ssl_init <;>
      simp [libTrace, hsi, Balanced, openedFds, closedFds, countE, isAllocCtx,
        isFreeCtx, isAllocSsl, isFreeSsl, isAllocPeer, isFreePeer,
        List.filterMap_append, List.filter_append]
  case peerAbsent =>
    refine ⟨rfl, ?_⟩
    cases hsi : s.ssl_init <;>
      simp [libTrace, hsi, Balanced, openedFds, closedFds, countE, isAllocCtx,
        isFreeCtx, isAllocSsl, isFreeSsl, isAllocPeer, isFreePeer,
        List.filterMap_append, List.filter_append]
  case verifyFail =>
    refine ⟨rfl, ?_⟩
    cases hsi : s.ssl_init <;>
      simp [libTrace, hsi, Balanced, openedFds, closedFds, countE, isAllocCtx,
        isFreeCtx, isAllocSsl, isFreeSsl, isAllocPeer, isFreePeer,
        List.filterMap_append, List.filter_append]
  case keyFail =>
    cases htl : s.tls <;> cases hsi : s.ssl_init <;>
      simp [libTrace, hsi, htl, Balanced, openedFds, closedFds, countE,
        isAllocCtx, isFreeCtx, isAllocSsl, isFreeSsl, isAllocPeer, isFreePeer,
        List.filterMap_append, List.filter_append]
  case ok =>
    exfalso
    have hos := loadStage_ok_sock hst
    cases htl : s.tls <;>
      simp [EstablishedP, DoLoad, hst, htl] at hfail <;> omega

/-- C6 witness: the refused plain connection attempt ends disconnected
with a balanced trace. -/
theorem C6_witness :
    (DoLoad writerDefaults envConnRefused false).1.sock = -1 ∧
    Balanced (DoLoad writerDefaults envConnRefused false).2.2 :=
  C6_failure_releases_resources writerDefaults envConnRefused false rfl
    (by decide) (by decide)

/-- C7: on a send failure during Write over an established transport,
with retry on the record is sent exactly once (never re-sent), the
transport is torn down (the socket close appears in this same call's
trace) and the final state is exactly the state after running a fresh
DoLoad (is_retry defaulting to false) on the unloaded writer — the
reconnect happens within this Write call — and Write returns true; with
retry off, the transport-specific error is reported, Write returns
false, and the writer state is left untouched apart from the buffer. -/
theorem C7_send_failure_policy (s : TCPState) (recSer : String) (w : WEnv)
    (hconn : 0 ≤ s.sock) (hfail : w.sendRet < 0) :
    (s.retry = true →
      (DoWrite s recSer w).2.1 = true ∧
      recSends (DoWrite s recSer w).2.2 =
        [Event.sendRec s.tls (recSer ++ "\n")] ∧
      Event.closeSock s.sock ∈ (DoWrite s recSer w).2.2 ∧
      (DoWrite s recSer w).1 =
        (DoLoadDefault (DoUnload { s with buffer := recSer ++ "\n" }).1
          w.failEnv).1) ∧
    (s.retry = false →
      (DoWrite s recSer w).2.1 = false ∧
      Event.err (if s.tls then Msg.tlsSendErr else Msg.sendErr) ∈
        (DoWrite s recSer w).2.2 ∧
      (DoWrite s recSer w).1 = { s with buffer := recSer ++ "\n" }) := by
  have hns : ¬ s.sock < 0 := by omega
  constructor
  · intro hr
    have hred : DoWrite s recSer w =
        ((DoLoadDefault (DoUnload { s with buffer := recSer ++ "\n" }).1
            w.failEnv).1, true,
          [] ++ [Event.sendRec s.tls (recSer ++ "\n")] ++
            (DoUnload { s with buffer := recSer ++ "\n" }).2.2 ++
            (DoLoadDefault (DoUnload { s with buffer := recSer ++ "\n" }).1
              w.failEnv).2.2) := by
      simp only [DoWrite, doSend]
      dsimp only
      rw [if_neg hns, if_pos hfail, if_pos hr]
      rfl
    refine ⟨?_, ?_, ?_, ?_⟩
    · rw [hred]
    · rw [hred]
      simp only [recSends_append, DoUnload_no_record_sends, DoLoadDefault,
        DoLoad_no_record_sends]
      simp [recSends, isRecSend]
    · rw [hred]
      have hm := DoUnload_closes { s with buffer := recSer ++ "\n" }
      dsimp only at hm
      simp only [List.append_assoc, List.mem_append]
      tauto
    · rw [hred]
  · intro hr
    have hnr : ¬ s.retry = true := by simp [hr]
    have hred : DoWrite s recSer w =
        ({ s with buffer := recSer ++ "\n" }, false,
          [] ++ [Event.sendRec s.tls (recSer ++ "\n"),
            Event.err (if s.tls then Msg.tlsSendErr else Msg.sendErr)]) := by
      simp only [DoWrite, doSend]
      dsimp only
      rw [if_neg hns, if_pos hfail, if_neg hnr]
      rfl
    refine ⟨?_, ?_, ?_⟩
    · rw [hred]
    · rw [hred]; simp
    · rw [hred]

/-- C7 witness: the connected plain writer with retry on returns true on
a send failure; with retry off it returns false. -/
theorem C7_witness :
    (DoWrite connectedPlain "rec" wSendFailThenRefused).2.1 = true ∧
    (DoWrite connectedPlainNoRetry "rec" wSendFailThenRefused).2.1 = false := by
  constructor
  · exact ((C7_send_failure_policy connectedPlain "rec" wSendFailThenRefused
      (by decide) (by decide)).1 rfl).1
  · exact ((C7_send_failure_policy connectedPlainNoRetry "rec"
      wSendFailThenRefused (by decide) (by decide)).2 rfl).1

/-- C8: a Write over an established plain connection whose send is
accepted returns true, and the bytes handed to the transport in that
call are exactly one plain send of the formatter's serialization of the
record followed by a single newline — whatever the reusable buffer held
before, it ends as exactly that serialization plus the newline. -/
theorem C8_plain_record_framing (s : TCPState) (recSer : String)
    (w : WEnv) (hconn : 0 ≤ s.sock) (htls : s.tls = false)
    (hok : 0 ≤ w.sendRet) :
    (DoWrite s recSer w).2.1 = true ∧
    (DoWrite s recSer w).2.2 = [Event.sendRec false (recSer ++ "\n")] ∧
    (DoWrite s recSer w).1.buffer = recSer ++ "\n" := by
  have hns : ¬ s.sock < 0 := by omega
  have hnr : ¬ w.sendRet < 0 := by omega
  simp [DoWrite, doSend, hns, hnr, htls]

/-- C8 witness: writing "rec" over the connected plain writer sends
exactly the bytes "rec" plus a newline. -/
theorem C8_witness :
    (DoWrite connectedPlain "rec" wZeroSend).2.1 = true ∧
    (DoWrite connectedPlain "rec" wZeroSend).2.2 =
      [Event.sendRec false ("rec" ++ "\n")] :=
  have h := C8_plain_record_framing connectedPlain "rec" wZeroSend
    (by decide) rfl (by decide)
  ⟨h.1, h.2.1⟩

/-- C9: a resolution failure (getaddrinfo positive) or a socket-open
failure makes DoLoad return false — never the retryable
connect-failure outcome — with exactly one Error-severity report and no
Warning, for every writer state, so regardless of the retry flag. -/
theorem C9_resolution_socket_always_fatal (s : TCPState) (e : Env) (b : Bool) :
    (0 < e.gaiRet →
      (DoLoad s e b).2.1 = false ∧
      (DoLoad s e b).2.2 = [Event.err Msg.resolveErr]) ∧
    (e.gaiRet ≤ 0 → e.socketRet < 0 →
      (DoLoad s e b).2.1 = false ∧
      (DoLoad s e b).2.2 = [Event.err Msg.socketErr]) := by
  constructor
  · intro h
    simp [DoLoad, loadStage_resolveFail_of h]
  · intro h1 h2
    simp [DoLoad, loadStage_socketFail_of h1 h2]

/-- C9 witness: with retry configured on, a resolution failure and a
socket failure both return false with their Error report. -/
theorem C9_witness :
    ((DoLoad plainKeyWriter envResolveFail false).2.1 = false ∧
      (DoLoad plainKeyWriter envResolveFail false).2.2 =
        [Event.err Msg.resolveErr]) ∧
    ((DoLoad plainKeyWriter envSocketFail true).2.1 = false ∧
      (DoLoad plainKeyWriter envSocketFail true).2.2 =
        [Event.err Msg.socketErr]) :=
  ⟨(C9_resolution_socket_always_fatal plainKeyWriter envResolveFail false).1
      (by decide),
    (C9_resolution_socket_always_fatal plainKeyWriter envSocketFail true).2
      (by decide) (by decide)⟩

/-- C10: a Write over an established transport whose send returns any
nonnegative value — zero bytes or fewer bytes than the buffer — returns
true; the whole trace is the single record send (so nothing is
retransmitted and no teardown or reconnect happens) and the state is
unchanged apart from the buffer. -/
theorem C10_nonnegative_send_is_success (s : TCPState) (recSer : String)
    (w : WEnv) (hconn : 0 ≤ s.sock) (hok : 0 ≤ w.sendRet) :
    (DoWrite s recSer w).2.1 = true ∧
    (DoWrite s recSer w).2.2 = [Event.sendRec s.tls (recSer ++ "\n")] ∧
    (DoWrite s recSer w).1 = { s with buffer := recSer ++ "\n" } := by
  have hns : ¬ s.sock < 0 := by omega
  have hnr : ¬ w.sendRet < 0 := by omega
  simp [DoWrite, doSend, hns, hnr]

/-- C10 witness: a send call accepting only five bytes of the record
still counts as success, with a single send event and no teardown. -/
theorem C10_witness :
    (DoWrite connectedTlsNoRetry "a longer record" wShortSend).2.1 = true ∧
    (DoWrite connectedTlsNoRetry "a longer record" wShortSend).2.2 =
      [Event.sendRec connectedTlsNoRetry.tls ("a longer record" ++ "\n")] :=
  have h := C10_nonnegative_send_is_success connectedTlsNoRetry
    "a longer record" wShortSend (by decide) (by decide)
  ⟨h.1, h.2.1⟩

end TCP
